import Mathlib

/-!
Verification development for the log-analysis pipeline
(`clustering.py` and `agent_helper.py`).

The Python source is shallowly embedded:

* JSON values produced by `json.loads` become the inductive `Json`;
  objects are association lists with distinct keys (as produced by the
  Python JSON parser, where duplicate keys collapse).
* A language-model call (`model(prompt)` followed by `json.loads`) is
  modelled by `LMResult`: the call may raise (`LMResult.err`), return
  text that is not valid JSON (`LMResult.text none`), or return text
  that parses to a JSON value (`LMResult.text (some j)`).  Prompt
  construction is pure string formatting that cannot raise, so prompts
  do not appear in the model.
* Python `str.strip` / `str.lower` are modelled on ASCII whitespace and
  ASCII letters (`String.trim`, `Char.toLower`), which agrees with the
  source on every string appearing in the analysed behaviours.
* Environment state is passed explicitly: the `DISABLE_AI_ENHANCEMENT`
  variable becomes an `Option String` argument.
-/

/-- JSON values as produced by `json.loads`. Numbers are modelled as
integers; no analysed behaviour depends on fractional values. -/
inductive Json where
  | null : Json
  | bool (b : Bool) : Json
  | num (n : Int) : Json
  | str (s : String) : Json
  | arr (xs : List Json) : Json
  | obj (kvs : List (String × Json)) : Json

/-- `kvs.get(k)` on a parsed JSON object: first (hence, with the distinct
keys `json.loads` yields, only) binding of `k`. -/
def lookupJson (kvs : List (String × Json)) (k : String) : Option Json :=
  (kvs.find? (fun kv => kv.1 == k)).map (fun kv => kv.2)

/-- Python truthiness of a JSON value (`not parsed.get("summary")`). -/
def pyTruthy : Json → Bool
  | Json.null => false
  | Json.bool b => b
  | Json.num n => n != 0
  | Json.str s => s != ""
  | Json.arr xs => !xs.isEmpty
  | Json.obj kvs => !kvs.isEmpty

/-- Python `str.strip()` (whitespace modelled as ASCII whitespace),
written by structural recursion on the character list so that it
evaluates by `rfl`/`decide`. -/
def pyStrip (s : String) : String :=
  ⟨((s.data.dropWhile Char.isWhitespace).reverse.dropWhile Char.isWhitespace).reverse⟩

/-- Python `str.lower()` (modelled on ASCII letters). -/
def pyLower (s : String) : String := ⟨s.data.map Char.toLower⟩

/-- Result of one language-model call as seen after `json.loads`:
`err` = the provider call raised; `text none` = the returned string is
not valid JSON (so `json.loads` raises); `text (some j)` = the returned
string parses to the JSON value `j`. -/
inductive LMResult where
  | err : LMResult
  | text (parsed : Option Json) : LMResult

/-- `is_ai_enhancement_enabled` (agent_helper.py line 22):
`os.getenv("DISABLE_AI_ENHANCEMENT", "false").lower() != "true"`. -/
def is_ai_enhancement_enabled (disableEnv : Option String) : Bool :=
  pyLower (disableEnv.getD "false") != "true"

/-- The record returned by `summarize_cluster`. Field values taken from a
parsed response may be arbitrary JSON values, so the four content fields
are `Json`. -/
structure SummaryRecord where
  cluster : Json
  summary : Json
  problem : Json
  solution : Json
  ai_summarized : Bool

/-- The dict literal that `summarize_cluster` returns at both of its
fallback sites (agent_helper.py lines 103-109 and 120-126; the source
repeats it verbatim). `count` is `len(logs)`. -/
def clusterFallback (cluster_id : Int) (count : Nat) : SummaryRecord :=
  { cluster := Json.str s!"Cluster {cluster_id}"
  , summary := Json.str s!"Cluster {cluster_id} contains {count} logs with varied content."
  , problem := Json.str "General cluster pattern"
  , solution := Json.str "Review logs for further investigation."
  , ai_summarized := false }

/-- `summarize_cluster` (agent_helper.py lines 59-126).  The branches:

* provider raise / `json.loads` failure → caught by the `except` at
  line 118 → fallback;
* `parsed` not a dict → `parsed.get` raises `AttributeError` → caught →
  fallback;
* `summary` key missing or its value falsy → line 101 first disjunct →
  fallback at lines 103-109;
* `summary` value truthy but not a string → `.strip()` raises
  `AttributeError` → caught → fallback;
* stripped `summary` shorter than 20 → line 101 second disjunct →
  fallback;
* otherwise the success dict of lines 111-117, the other three fields
  defaulted independently via `parsed.get(key, default)`. -/
def summarize_cluster (resp : LMResult) (cluster_id : Int) (logs : List String) :
    SummaryRecord :=
  match resp with
  | LMResult.err => clusterFallback cluster_id logs.length
  | LMResult.text none => clusterFallback cluster_id logs.length
  | LMResult.text (some parsed) =>
    match parsed with
    | Json.obj kvs =>
      match lookupJson kvs "summary" with
      | none => clusterFallback cluster_id logs.length
      | some v =>
        if !pyTruthy v then clusterFallback cluster_id logs.length
        else
          match v with
          | Json.str s =>
            if (pyStrip s).length < 20 then clusterFallback cluster_id logs.length
            else
              { cluster := (lookupJson kvs "cluster").getD (Json.str s!"Cluster {cluster_id}")
              , summary := Json.str s
              , problem := (lookupJson kvs "problem").getD (Json.str "General cluster pattern")
              , solution := (lookupJson kvs "solution").getD
                  (Json.str "Review logs for further investigation.")
              , ai_summarized := true }
          | _ => clusterFallback cluster_id logs.length
    | _ => clusterFallback cluster_id logs.length

example :
    summarize_cluster (LMResult.text (some (Json.obj [("summary", Json.str "ok")]))) 2 ["a"]
      = clusterFallback 2 1 := rfl

example :
    (summarize_cluster
      (LMResult.text (some (Json.obj
        [("summary", Json.str "a sufficiently long summary text")]))) 2 ["a"]).ai_summarized
      = true := rfl

/-- The value of the `alerts` key in the result of `summarize_clusters`:
either a Python string or the parsed list of alert dicts. -/
inductive AlertsValue where
  | str (s : String) : AlertsValue
  | list (xs : List Json) : AlertsValue

/-- The three keys required of every alert dict
(agent_helper.py line 211): note `"suggestions"`, plural. -/
def alertKeys : List String := ["log", "explanation", "suggestions"]

/-- `isinstance(alert, dict) and all(key in alert for key in [...])`
(agent_helper.py line 211). -/
def isAlertDict : Json → Bool
  | Json.obj kvs => alertKeys.all (fun k => kvs.any (fun kv => kv.1 == k))
  | _ => false

/-- The file-wide insight extraction of `summarize_clusters`
(agent_helper.py lines 206-218; the spec names this operation
`extract_insights`).  `alerts` starts as `"No alerts identified"` and is
replaced by the parsed list only if the response is a non-empty JSON
array all of whose elements pass `isAlertDict`; a provider raise or a
`json.loads` failure is caught at line 217 and leaves the sentinel. -/
def extract_insights (resp : LMResult) : AlertsValue :=
  match resp with
  | LMResult.err => AlertsValue.str "No alerts identified"
  | LMResult.text none => AlertsValue.str "No alerts identified"
  | LMResult.text (some parsed) =>
    match parsed with
    | Json.arr xs =>
      if xs.length > 0 && xs.all isAlertDict then AlertsValue.list xs
      else AlertsValue.str "No alerts identified"
    | _ => AlertsValue.str "No alerts identified"

/-- One element of `summarize_clusters`' input `cluster_data`, in the
persisted interchange format produced by `export_clusters_to_json`
(clustering.py lines 57-64): `cluster_id`, `log_count`, `logs`. -/
structure ClusterData where
  cluster_id : Int
  log_count : Nat
  logs : List String

/-- One element of the `clusters` list in `summarize_clusters`' result
(agent_helper.py lines 144-153, 174-183, 234-243). -/
structure ClusterRecord where
  cluster_id : Int
  log_count : Nat
  cluster : Json
  summary : Json
  problem : Json
  solution : Json
  original_logs : List String
  ai_summarized : Bool

/-- The result dict of `summarize_clusters`.  `ai_error` records whether
the `"ai_error"` key is present (lines 231-248); `ollama_model_used` is
present only on the successful path (line 224). -/
structure AnalysisResult where
  alerts : AlertsValue
  clusters : List ClusterRecord
  ai_enhancement_used : Bool
  ollama_model_used : Option String
  ai_error : Bool

/-- The per-cluster record built in the disabled path (lines 144-153)
and, identically, in the outer-exception path (lines 234-243).  Note the
summary text uses the input's `log_count` field, not `len(logs)`. -/
def basicRecord (c : ClusterData) : ClusterRecord :=
  { cluster_id := c.cluster_id
  , log_count := c.log_count
  , cluster := Json.str s!"Cluster {c.cluster_id}"
  , summary := Json.str s!"Cluster {c.cluster_id} contains {c.log_count} logs with varied content."
  , problem := Json.str "General cluster pattern"
  , solution := Json.str "Review logs for further investigation."
  , original_logs := c.logs
  , ai_summarized := false }

/-- The record appended for one cluster in the enabled path
(agent_helper.py lines 174-183), from `summarize_cluster`'s output. -/
def enabledRecord (sd : SummaryRecord) (c : ClusterData) : ClusterRecord :=
  { cluster_id := c.cluster_id
  , log_count := c.log_count
  , cluster := sd.cluster
  , summary := sd.summary
  , problem := sd.problem
  , solution := sd.solution
  , original_logs := c.logs
  , ai_summarized := sd.ai_summarized }

/-- Behaviour of the Language Model Provider during one run:
whether `LangchainOllamaLLMModel()` constructs without raising
(`initOk`), the response to the `i`-th per-cluster summarization call
(`clusterResp i`), and the response to the one file-wide alerts call
(`alertsResp`). -/
structure ProviderBehaviour where
  initOk : Bool
  clusterResp : Nat → LMResult
  alertsResp : LMResult

/-- The `for cluster in cluster_data` loop of `summarize_clusters`
(agent_helper.py lines 166-183): the `i`-th cluster is summarized with
the provider's `i`-th response, independently of all other clusters. -/
def summarizeLoop (resp : Nat → LMResult) : Nat → List ClusterData → List ClusterRecord
  | _, [] => []
  | i, c :: rest =>
    enabledRecord (summarize_cluster (resp i) c.cluster_id c.logs) c
      :: summarizeLoop resp (i + 1) rest

/-- `summarize_clusters` (agent_helper.py lines 129-249).

* Disabled gate (lines 139-158): checked once, before the provider is
  constructed; the result does not depend on the provider at all.
* Provider construction failure (line 162 raising, caught by the outer
  `except` at line 229): every cluster gets the basic record and the
  result carries `ai_error`.
* Otherwise: per-cluster loop, then the alerts call; `summarize_cluster`
  catches every exception of its provider call, and the alerts call has
  its own `try`, so the outer `except` is not reached. -/
def summarize_clusters (disableEnv : Option String) (pb : ProviderBehaviour)
    (cluster_data : List ClusterData) : AnalysisResult :=
  if !is_ai_enhancement_enabled disableEnv then
    { alerts := AlertsValue.str "No alerts identified"
    , clusters := cluster_data.map basicRecord
    , ai_enhancement_used := false
    , ollama_model_used := none
    , ai_error := false }
  else if !pb.initOk then
    { alerts := AlertsValue.str "No alerts identified"
    , clusters := cluster_data.map basicRecord
    , ai_enhancement_used := false
    , ollama_model_used := none
    , ai_error := true }
  else
    { alerts := extract_insights pb.alertsResp
    , clusters := summarizeLoop pb.clusterResp 0 cluster_data
    , ai_enhancement_used := true
    , ollama_model_used := some "llama3.2"
    , ai_error := false }

/-- One step of `clustered_logs[label].append(log)` on a
`defaultdict(list)`, modelled as an association list in insertion order:
append to the existing entry for `label`, or add a new entry at the
end. -/
def addToCluster (acc : List (Int × List String)) (label : Int) (log : String) :
    List (Int × List String) :=
  match acc with
  | [] => [(label, [log])]
  | (l, ls) :: rest =>
    if l = label then (l, ls ++ [log]) :: rest
    else (l, ls) :: addToCluster rest label log

/-- `group_logs_by_cluster` (clustering.py lines 51-55):
`for log, label in zip(logs, labels): clustered_logs[label].append(log)`.
`zip` silently truncates to the shorter of the two sequences. -/
def group_logs_by_cluster (logs : List String) (labels : List Int) :
    List (Int × List String) :=
  (logs.zip labels).foldl (fun acc p => addToCluster acc p.2 p.1) []

/-- `clustered_logs[l]` viewed as a total lookup: the member list of
cluster `l`, `[]` if the cluster is absent. -/
def lookupGroup : List (Int × List String) → Int → List String
  | [], _ => []
  | (k, ls) :: rest, l => if k = l then ls else lookupGroup rest l

/-- Modelled from the spec (§4.1, §6): the external density-based
clustering kernel (`sklearn.cluster.DBSCAN.fit_predict`, not part of
this repository).  The cosine-distance comparison on floating-point
vectors is abstracted as a decidable reachability predicate on point
indices (`reach i j` = "cosine distance between points `i` and `j` is at
most `similarity_eps`"); the grouping policy follows §4.1: a point is a
core point if at least `min_samples` points (itself included) are within
reach; clusters grow from core points through their reachable
neighbours; unreached points keep the noise label `-1`.

`neighborIdx n reach i` is the list of points within reach of `i`. -/
def neighborIdx (n : Nat) (reach : Nat → Nat → Bool) (i : Nat) : List Nat :=
  (List.range n).filter (fun j => reach i j)

/-- Modelled from the spec (§4.1): core-point test of the external
clustering kernel. -/
def isCorePoint (n : Nat) (reach : Nat → Nat → Bool) (minSamples i : Nat) : Bool :=
  minSamples ≤ (neighborIdx n reach i).length

/-- Modelled from the spec (§4.1): cluster expansion of the external
clustering kernel — breadth-first growth of cluster `lbl` from a core
seed; a labelled point is never relabelled, and only core points extend
the frontier.  `fuel` bounds the walk (each point enqueues its
neighbours at most once). -/
def expandCluster (n : Nat) (reach : Nat → Nat → Bool) (minSamples : Nat) (lbl : Int) :
    Nat → List Nat → List (Option Int) → List (Option Int)
  | 0, _, labels => labels
  | _ + 1, [], labels => labels
  | fuel + 1, p :: queue, labels =>
    if (labels.getD p none).isSome then
      expandCluster n reach minSamples lbl fuel queue labels
    else
      let labels' := labels.set p (some lbl)
      if isCorePoint n reach minSamples p then
        expandCluster n reach minSamples lbl fuel (queue ++ neighborIdx n reach p) labels'
      else
        expandCluster n reach minSamples lbl fuel queue labels'

/-- Modelled from the spec (§4.1): the scan of the external clustering
kernel over all points in index order, starting a new cluster at each
yet-unlabelled core point. -/
def dbscanScan (n : Nat) (reach : Nat → Nat → Bool) (minSamples : Nat) :
    List Nat → Int → List (Option Int) → List (Option Int)
  | [], _, labels => labels
  | i :: rest, nextLbl, labels =>
    if (labels.getD i none).isSome then
      dbscanScan n reach minSamples rest nextLbl labels
    else if isCorePoint n reach minSamples i then
      dbscanScan n reach minSamples rest (nextLbl + 1)
        (expandCluster n reach minSamples nextLbl ((n + 1) * (n + 1)) [i] labels)
    else
      dbscanScan n reach minSamples rest nextLbl labels

/-- Modelled from the spec (§6): `fit_predict` of the external
clustering kernel over `n` points; points never claimed by a cluster
receive the noise label `-1`. -/
def fit_predict (n : Nat) (reach : Nat → Nat → Bool) (minSamples : Nat) : List Int :=
  (dbscanScan n reach minSamples (List.range n) 0 (List.replicate n none)).map
    (fun o => o.getD (-1))

/-- `cluster_logs` (clustering.py lines 46-49): delegates to the
clustering kernel's `fit_predict` on the embedding vectors.  The vector
type and the cosine-distance-within-`eps` test are abstract
(floating-point arithmetic lives in the external kernel). -/
def cluster_logs {V : Type} (embeddings : List V) (reach : V → V → Bool)
    (minSamples : Nat) : List Int :=
  fit_predict embeddings.length
    (fun i j =>
      match embeddings.get? i, embeddings.get? j with
      | some v, some w => reach v w
      | _, _ => false)
    minSamples

/-- Total membership count of a grouping. -/
def groupTotal (acc : List (Int × List String)) : Nat :=
  (acc.map (fun e => e.2.length)).sum

theorem lookupGroup_addToCluster (acc : List (Int × List String)) (label : Int)
    (log : String) (l : Int) :
    lookupGroup (addToCluster acc label log) l =
      lookupGroup acc l ++ (if l = label then [log] else []) := by
  induction acc with
  | nil =>
    by_cases h : l = label
    · subst h; simp [addToCluster, lookupGroup]
    · simp [addToCluster, lookupGroup, Ne.symm h, h]
  | cons e rest ih =>
    obtain ⟨k, ls⟩ := e
    by_cases hk : k = label
    · subst hk
      by_cases hl : k = l
      · subst hl; simp [addToCluster, lookupGroup]
      · simp [addToCluster, lookupGroup, hl, Ne.symm hl]
    · by_cases hl : k = l
      · subst hl
        simp [addToCluster, lookupGroup, hk, Ne.symm hk]
      · simp [addToCluster, lookupGroup, hk, hl, ih]

theorem groupTotal_addToCluster (acc : List (Int × List String)) (label : Int)
    (log : String) :
    groupTotal (addToCluster acc label log) = groupTotal acc + 1 := by
  induction acc with
  | nil => simp [addToCluster, groupTotal]
  | cons e rest ih =>
    obtain ⟨k, ls⟩ := e
    by_cases hk : k = label
    · subst hk; simp [addToCluster, groupTotal]; omega
    · simp [addToCluster, groupTotal, hk] at ih ⊢; omega

theorem groupKeys_addToCluster (acc : List (Int × List String)) (label : Int)
    (log : String) :
    (addToCluster acc label log).map Prod.fst =
      if label ∈ acc.map Prod.fst then acc.map Prod.fst
      else acc.map Prod.fst ++ [label] := by
  induction acc with
  | nil => simp [addToCluster]
  | cons e rest ih =>
    obtain ⟨k, ls⟩ := e
    by_cases hk : k = label
    · subst hk; simp [addToCluster]
    · simp only [addToCluster, if_neg hk, List.map_cons]
      rw [ih]
      by_cases hmem : label ∈ rest.map Prod.fst
      · simp [hmem]
      · simp [hmem, Ne.symm hk]

theorem nodupKeys_addToCluster (acc : List (Int × List String)) (label : Int)
    (log : String) (h : (acc.map Prod.fst).Nodup) :
    ((addToCluster acc label log).map Prod.fst).Nodup := by
  rw [groupKeys_addToCluster]
  split
  · exact h
  · next hmem => simp [List.nodup_append, h, hmem]

theorem lookupGroup_foldl (pairs : List (String × Int)) (acc : List (Int × List String))
    (l : Int) :
    lookupGroup (pairs.foldl (fun a p => addToCluster a p.2 p.1) acc) l =
      lookupGroup acc l ++ (pairs.filter (fun p => p.2 == l)).map Prod.fst := by
  induction pairs generalizing acc with
  | nil => simp
  | cons p rest ih =>
    simp only [List.foldl_cons, List.filter_cons]
    rw [ih, lookupGroup_addToCluster]
    by_cases h : p.2 = l
    · simp [h, List.append_assoc]
    · simp [h, Ne.symm h]

theorem groupTotal_foldl (pairs : List (String × Int)) (acc : List (Int × List String)) :
    groupTotal (pairs.foldl (fun a p => addToCluster a p.2 p.1) acc) =
      groupTotal acc + pairs.length := by
  induction pairs generalizing acc with
  | nil => simp
  | cons p rest ih =>
    simp only [List.foldl_cons, List.length_cons]
    rw [ih, groupTotal_addToCluster]
    omega

theorem nodupKeys_foldl (pairs : List (String × Int)) (acc : List (Int × List String))
    (h : (acc.map Prod.fst).Nodup) :
    (((pairs.foldl (fun a p => addToCluster a p.2 p.1) acc)).map Prod.fst).Nodup := by
  induction pairs generalizing acc with
  | nil => exact h
  | cons p rest ih =>
    exact ih _ (nodupKeys_addToCluster _ _ _ h)

theorem zip_truncate {α β : Type} (xs : List α) (ys : List β) :
    xs.zip ys = (xs.take ys.length).zip (ys.take xs.length) := by
  induction xs generalizing ys with
  | nil => simp
  | cons a as ih =>
    cases ys with
    | nil => simp
    | cons b bs => simpa using ih bs

theorem length_expandCluster (n : Nat) (reach : Nat → Nat → Bool) (m : Nat) (lbl : Int) :
    ∀ (fuel : Nat) (queue : List Nat) (labels : List (Option Int)),
      (expandCluster n reach m lbl fuel queue labels).length = labels.length := by
  intro fuel
  induction fuel with
  | zero => intro queue labels; rfl
  | succ f ih =>
    intro queue labels
    cases queue with
    | nil => rfl
    | cons p rest =>
      simp only [expandCluster]
      split
      · exact ih _ _
      · split <;> simp [ih]

theorem length_dbscanScan (n : Nat) (reach : Nat → Nat → Bool) (m : Nat) :
    ∀ (idxs : List Nat) (nextLbl : Int) (labels : List (Option Int)),
      (dbscanScan n reach m idxs nextLbl labels).length = labels.length := by
  intro idxs
  induction idxs with
  | nil => intro nextLbl labels; rfl
  | cons i rest ih =>
    intro nextLbl labels
    simp only [dbscanScan]
    split
    · exact ih _ _
    · split
      · rw [ih, length_expandCluster]
      · exact ih _ _

theorem length_fit_predict (n : Nat) (reach : Nat → Nat → Bool) (m : Nat) :
    (fit_predict n reach m).length = n := by
  simp [fit_predict, length_dbscanScan]

theorem exists_of_lookupGroup_ne_nil (acc : List (Int × List String)) (l : Int)
    (h : lookupGroup acc l ≠ []) : ∃ e ∈ acc, e.1 = l := by
  induction acc with
  | nil => simp [lookupGroup] at h
  | cons e rest ih =>
    obtain ⟨k, ls⟩ := e
    by_cases hk : k = l
    · exact ⟨(k, ls), List.mem_cons_self _ _, hk⟩
    · simp only [lookupGroup, if_neg hk] at h
      obtain ⟨e, he, hel⟩ := ih h
      exact ⟨e, List.mem_cons_of_mem _ he, hel⟩

theorem summarizeLoop_get? (resp : Nat → LMResult) (data : List ClusterData) :
    ∀ (i j : Nat),
      (summarizeLoop resp i data).get? j
        = (data.get? j).map (fun c =>
            enabledRecord (summarize_cluster (resp (i + j)) c.cluster_id c.logs) c) := by
  induction data with
  | nil => intro i j; simp [summarizeLoop]
  | cons c rest ih =>
    intro i j
    cases j with
    | zero => simp [summarizeLoop]
    | succ j' =>
      have harith : i + 1 + j' = i + (j' + 1) := by omega
      simp only [summarizeLoop, List.get?_cons_succ]
      rw [ih (i + 1) j', harith]

/-- C7: for equally long `logs` and `labels`, `group_logs_by_cluster`
partitions the lines: the membership counts sum to `len(logs)`, cluster
ids are pairwise distinct, the member list of each cluster `l` is
exactly the lines whose label is `l` (in input order), and every label
occurring in `labels` — the noise label `-1` included — yields a cluster
entry. -/
theorem C7_grouping_partition (logs : List String) (labels : List Int)
    (h : logs.length = labels.length) :
    (((group_logs_by_cluster logs labels).map (fun e => e.2.length)).sum = logs.length)
    ∧ ((group_logs_by_cluster logs labels).map Prod.fst).Nodup
    ∧ (∀ l : Int, lookupGroup (group_logs_by_cluster logs labels) l
        = ((logs.zip labels).filter (fun p => p.2 == l)).map Prod.fst)
    ∧ (∀ l : Int, l ∈ labels →
        ∃ e ∈ group_logs_by_cluster logs labels, e.1 = l) := by
  refine ⟨?_, ?_, ?_, ?_⟩
  · show groupTotal (group_logs_by_cluster logs labels) = logs.length
    rw [group_logs_by_cluster, groupTotal_foldl]
    simp [groupTotal, List.length_zip]
    omega
  · rw [group_logs_by_cluster]
    exact nodupKeys_foldl _ _ (by simp)
  · intro l
    rw [group_logs_by_cluster, lookupGroup_foldl]
    simp [lookupGroup]
  · intro l hl
    have hlen : labels.length ≤ logs.length := h.ge
    have hmem : l ∈ (logs.zip labels).map Prod.snd := by
      rw [List.map_snd_zip _ _ hlen]; exact hl
    obtain ⟨p, hp, hpl⟩ := List.mem_map.mp hmem
    apply exists_of_lookupGroup_ne_nil
    rw [group_logs_by_cluster, lookupGroup_foldl]
    have hpf : p ∈ (logs.zip labels).filter (fun q => q.2 == l) :=
      List.mem_filter.mpr ⟨hp, by simp [hpl]⟩
    have hp1 : p.1 ∈ ((logs.zip labels).filter (fun q => q.2 == l)).map Prod.fst :=
      List.mem_map_of_mem _ hpf
    intro hc
    simp only [lookupGroup, List.nil_append] at hc
    rw [hc] at hp1
    exact absurd hp1 (List.not_mem_nil _)

theorem C7_grouping_partition_witness :
    ((group_logs_by_cluster ["a", "b", "c"] [0, -1, 0]).map (fun e => e.2.length)).sum = 3
    ∧ lookupGroup (group_logs_by_cluster ["a", "b", "c"] [0, -1, 0]) (-1) = ["b"] := by
  refine ⟨(C7_grouping_partition ["a", "b", "c"] [0, -1, 0] rfl).1, ?_⟩
  rw [(C7_grouping_partition ["a", "b", "c"] [0, -1, 0] rfl).2.2.1 (-1)]
  rfl

/-- C8 counterexample: with two lines and one label, the grouping stage
does not abort — it silently returns a grouping covering only the first
line, dropping `"b"` (total membership 1, not 2). -/
theorem C8_mismatch_counterexample :
    group_logs_by_cluster ["a", "b"] [0] = [(0, ["a"])]
    ∧ ((group_logs_by_cluster ["a", "b"] [0]).map (fun e => e.2.length)).sum ≠ 2 :=
  ⟨rfl, by decide⟩

/-- C8 amended: on a label/line-count mismatch, `group_logs_by_cluster`
does not abort and raises no diagnostic; `zip` silently truncates both
sequences to the shorter length, so the grouping covers exactly
`min(len(lines), len(labels))` lines and the excess lines or labels are
dropped. -/
theorem C8_mismatch_truncates (logs : List String) (labels : List Int) :
    group_logs_by_cluster logs labels
      = group_logs_by_cluster (logs.take labels.length) (labels.take logs.length)
    ∧ ((group_logs_by_cluster logs labels).map (fun e => e.2.length)).sum
      = min logs.length labels.length := by
  constructor
  · rw [group_logs_by_cluster, group_logs_by_cluster, ← zip_truncate]
  · show groupTotal (group_logs_by_cluster logs labels) = _
    rw [group_logs_by_cluster, groupTotal_foldl]
    simp [groupTotal, List.length_zip]

/-- C9: the clustering operation applied to an empty vector sequence
returns the empty label sequence (total, no error), and in general
returns one label per input vector.  The density-based kernel itself is
external (`sklearn` DBSCAN); it is modelled from the spec, §4.1/§6. -/
theorem C9_cluster_empty :
    (∀ (V : Type) (reach : V → V → Bool) (minSamples : Nat),
      cluster_logs ([] : List V) reach minSamples = [])
    ∧ (∀ (V : Type) (embeddings : List V) (reach : V → V → Bool) (minSamples : Nat),
      (cluster_logs embeddings reach minSamples).length = embeddings.length) := by
  constructor
  · intro V reach m; rfl
  · intro V emb reach m
    exact length_fit_predict _ _ _

/-- C10: the AI-enhancement gate reports "disabled" exactly when the
lower-cased value of `DISABLE_AI_ENHANCEMENT` is the string `"true"`;
unset, `"1"`, `"yes"` and `"True "` (trailing space) all leave it
enabled. -/
theorem C10_env_gate :
    (∀ v : String, is_ai_enhancement_enabled (some v) = false ↔ pyLower v = "true")
    ∧ is_ai_enhancement_enabled none = true
    ∧ is_ai_enhancement_enabled (some "1") = true
    ∧ is_ai_enhancement_enabled (some "yes") = true
    ∧ is_ai_enhancement_enabled (some "True ") = true
    ∧ is_ai_enhancement_enabled (some "TRUE") = false := by
  refine ⟨?_, ?_, ?_, ?_, ?_, ?_⟩
  · intro v
    simp [is_ai_enhancement_enabled]
  all_goals decide

/-- C2: `summarize_cluster` is total over every provider behaviour
(raise, non-JSON text, arbitrary JSON), and any outcome that is not an
accepted AI summary (`ai_summarized = true`) is exactly the fallback
record — which is the stated deterministic template over
`(cluster_id, count)` alone, and is in particular what every provider
failure yields. -/
theorem C2_fallback_totality :
    (∀ (resp : LMResult) (cid : Int) (logs : List String),
      (summarize_cluster resp cid logs).ai_summarized = true
      ∨ summarize_cluster resp cid logs = clusterFallback cid logs.length)
    ∧ (∀ (cid : Int) (count : Nat),
        clusterFallback cid count
          = { cluster := Json.str s!"Cluster {cid}"
            , summary := Json.str s!"Cluster {cid} contains {count} logs with varied content."
            , problem := Json.str "General cluster pattern"
            , solution := Json.str "Review logs for further investigation."
            , ai_summarized := false })
    ∧ (∀ (cid : Int) (logs : List String),
        summarize_cluster LMResult.err cid logs = clusterFallback cid logs.length) := by
  refine ⟨?_, fun _ _ => rfl, fun _ _ => rfl⟩
  intro resp cid logs
  rcases resp with _ | o
  · right; rfl
  rcases o with _ | parsed
  · right; rfl
  rcases parsed with _ | b | n | s | xs | kvs
  · right; rfl
  · right; rfl
  · right; rfl
  · right; rfl
  · right; rfl
  rcases hl : lookupJson kvs "summary" with _ | v
  · right; simp [summarize_cluster, hl]
  rcases hpt : pyTruthy v
  · right; simp [summarize_cluster, hl, hpt]
  rcases v with _ | b | n | s | xs | kvs'
  · right; simp [summarize_cluster, hl, hpt]
  · right; simp [summarize_cluster, hl, hpt]
  · right; simp [summarize_cluster, hl, hpt]
  · by_cases hlen : (pyStrip s).length < 20
    · right; simp [summarize_cluster, hl, hpt, hlen]
    · left; simp [summarize_cluster, hl, hpt, hlen]
  · right; simp [summarize_cluster, hl, hpt]
  · right; simp [summarize_cluster, hl, hpt]

/-- C3: every rejected response — `json.loads` failure, missing
`summary` key, or a string `summary` whose stripped length is below 20 —
makes `summarize_cluster` return the deterministic fallback; in
particular the syntactically valid `{"summary": "ok"}` is rejected. -/
theorem C3_validation_rejects (cid : Int) (logs : List String) :
    (summarize_cluster (LMResult.text none) cid logs = clusterFallback cid logs.length)
    ∧ (∀ kvs : List (String × Json), lookupJson kvs "summary" = none →
        summarize_cluster (LMResult.text (some (Json.obj kvs))) cid logs
          = clusterFallback cid logs.length)
    ∧ (∀ (kvs : List (String × Json)) (s : String),
        lookupJson kvs "summary" = some (Json.str s) →
        (pyStrip s).length < 20 →
        summarize_cluster (LMResult.text (some (Json.obj kvs))) cid logs
          = clusterFallback cid logs.length)
    ∧ (summarize_cluster (LMResult.text (some (Json.obj [("summary", Json.str "ok")])))
         cid logs = clusterFallback cid logs.length) := by
  refine ⟨rfl, ?_, ?_, rfl⟩
  · intro kvs hl
    simp [summarize_cluster, hl]
  · intro kvs s hl hlen
    by_cases hs : s = ""
    · subst hs; simp [summarize_cluster, hl, pyTruthy]
    · simp [summarize_cluster, hl, pyTruthy, hs, hlen]

theorem C3_validation_rejects_witness :
    summarize_cluster (LMResult.text (some (Json.obj [("summary", Json.str "ok")]))) 5
      ["x", "y"] = clusterFallback 5 2 :=
  (C3_validation_rejects 5 ["x", "y"]).2.2.2

/-- C4: a response that parses to a JSON object whose `summary` is a
string of stripped length at least 20 is accepted: `ai_summarized` is
true, `summary` is the response's value, and `cluster`, `problem`,
`solution` are each taken from the response when present and replaced by
their named defaults when absent. -/
theorem C4_partial_accept (cid : Int) (logs : List String)
    (kvs : List (String × Json)) (s : String)
    (hs : lookupJson kvs "summary" = some (Json.str s))
    (hlen : 20 ≤ (pyStrip s).length) :
    summarize_cluster (LMResult.text (some (Json.obj kvs))) cid logs
      = { cluster := (lookupJson kvs "cluster").getD (Json.str s!"Cluster {cid}")
        , summary := Json.str s
        , problem := (lookupJson kvs "problem").getD (Json.str "General cluster pattern")
        , solution := (lookupJson kvs "solution").getD
            (Json.str "Review logs for further investigation.")
        , ai_summarized := true } := by
  have hne : s ≠ "" := by
    intro hem
    subst hem
    have : (pyStrip "").length = 0 := rfl
    omega
  simp [summarize_cluster, hs, pyTruthy, hne, Nat.not_lt.mpr hlen]

theorem C4_partial_accept_witness :
    summarize_cluster (LMResult.text (some (Json.obj
      [("summary", Json.str "connection timeouts repeat")]))) 3 ["x"]
      = { cluster := Json.str "Cluster 3"
        , summary := Json.str "connection timeouts repeat"
        , problem := Json.str "General cluster pattern"
        , solution := Json.str "Review logs for further investigation."
        , ai_summarized := true } :=
  (C4_partial_accept 3 ["x"] [("summary", Json.str "connection timeouts repeat")]
    "connection timeouts repeat" rfl (by decide)).trans rfl

/-- C1 (as frozen): the claim's validation schema, stated in the claim's
own words — a non-empty JSON array all of whose elements are objects
containing the three keys `log`, `explanation`, `suggestion`
(singular). -/
def specAlertSchemaOK : Json → Bool
  | Json.arr xs =>
    !xs.isEmpty && xs.all (fun a =>
      match a with
      | Json.obj kvs =>
        ["log", "explanation", "suggestion"].all (fun k => kvs.any (fun kv => kv.1 == k))
      | _ => false)
  | _ => false

/-- C1 counterexample: a response that satisfies the claim's schema
(keys `log`, `explanation`, `suggestion`) is nevertheless rejected by
the code, whose required third key is `"suggestions"`; and the sentinel
the code produces is `"No alerts identified"`, not the claim's
`"no alerts identified"`. -/
theorem C1_counterexample :
    specAlertSchemaOK (Json.arr [Json.obj
      [("log", Json.str "ERROR db timeout"), ("explanation", Json.str "repeated failure"),
       ("suggestion", Json.str "check the database")]]) = true
    ∧ extract_insights (LMResult.text (some (Json.arr [Json.obj
        [("log", Json.str "ERROR db timeout"), ("explanation", Json.str "repeated failure"),
         ("suggestion", Json.str "check the database")]])))
        = AlertsValue.str "No alerts identified"
    ∧ extract_insights LMResult.err ≠ AlertsValue.str "no alerts identified" := by
  refine ⟨rfl, rfl, ?_⟩
  intro hc
  rw [show extract_insights LMResult.err = AlertsValue.str "No alerts identified" from rfl]
      at hc
  injection hc with hc
  exact absurd hc (by decide)

/-- C1 amended: in `summarize_clusters` with the gate enabled and the
provider constructed, the `alerts` value is the parsed list exactly when
the response parses to a non-empty JSON array all of whose elements are
objects containing the keys `log`, `explanation`, `suggestions`
(plural); on any violation, provider error or parse failure it is
exactly the sentinel string `"No alerts identified"` — never a partial
or empty list, never an exception. -/
theorem C1_alerts_validation :
    (∀ resp : LMResult,
      extract_insights resp = AlertsValue.str "No alerts identified"
      ∨ ∃ xs : List Json, xs ≠ [] ∧ xs.all isAlertDict = true
          ∧ resp = LMResult.text (some (Json.arr xs))
          ∧ extract_insights resp = AlertsValue.list xs)
    ∧ (∀ (xs : List Json), xs ≠ [] → xs.all isAlertDict = true →
        extract_insights (LMResult.text (some (Json.arr xs))) = AlertsValue.list xs)
    ∧ (∀ (env : Option String) (pb : ProviderBehaviour) (data : List ClusterData),
        is_ai_enhancement_enabled env = true → pb.initOk = true →
        (summarize_clusters env pb data).alerts = extract_insights pb.alertsResp) := by
  refine ⟨?_, ?_, ?_⟩
  · intro resp
    rcases resp with _ | o
    · left; rfl
    rcases o with _ | parsed
    · left; rfl
    rcases parsed with _ | b | n | s | xs | kvs
    · left; rfl
    · left; rfl
    · left; rfl
    · left; rfl
    · by_cases hc : (decide (xs.length > 0) && xs.all isAlertDict) = true
      · right
        refine ⟨xs, ?_, ?_, rfl, ?_⟩
        · have := (Bool.and_eq_true _ _).mp hc
          intro hxs
          subst hxs
          simp at this
        · exact ((Bool.and_eq_true _ _).mp hc).2
        · simp [extract_insights, hc]
      · left; simp [extract_insights, hc]
    · left; rfl
  · intro xs hne hall
    have hlen : xs.length > 0 := List.length_pos.mpr hne
    simp [extract_insights, hlen, hall]
  · intro env pb data he hi
    simp [summarize_clusters, he, hi]

theorem C1_alerts_validation_witness :
    (summarize_clusters none
        ⟨true, fun _ => LMResult.err, LMResult.err⟩ []).alerts
      = extract_insights LMResult.err
    ∧ extract_insights (LMResult.text (some (Json.arr
        [Json.obj [("log", Json.null), ("explanation", Json.null),
                   ("suggestions", Json.null)]])))
      = AlertsValue.list
          [Json.obj [("log", Json.null), ("explanation", Json.null),
                     ("suggestions", Json.null)]] :=
  ⟨C1_alerts_validation.2.2 none ⟨true, fun _ => LMResult.err, LMResult.err⟩ [] rfl rfl,
   C1_alerts_validation.2.1 _ (by simp) rfl⟩

/-- C5: with AI enhancement disabled, `summarize_clusters` is decided
before any provider interaction: the result is independent of the
provider behaviour (the provider is never constructed or called), every
cluster record is the deterministic basic record with
`ai_summarized = false`, `alerts` is the sentinel, and
`ai_enhancement_used = false`. -/
theorem C5_disabled_no_provider (env : Option String) (pb pb' : ProviderBehaviour)
    (data : List ClusterData) (h : is_ai_enhancement_enabled env = false) :
    summarize_clusters env pb data
      = { alerts := AlertsValue.str "No alerts identified"
        , clusters := data.map basicRecord
        , ai_enhancement_used := false
        , ollama_model_used := none
        , ai_error := false }
    ∧ summarize_clusters env pb data = summarize_clusters env pb' data
    ∧ (∀ c ∈ (summarize_clusters env pb data).clusters, c.ai_summarized = false) := by
  have he : summarize_clusters env pb data
      = { alerts := AlertsValue.str "No alerts identified"
        , clusters := data.map basicRecord
        , ai_enhancement_used := false
        , ollama_model_used := none
        , ai_error := false } := by
    simp [summarize_clusters, h]
  have he' : summarize_clusters env pb' data
      = { alerts := AlertsValue.str "No alerts identified"
        , clusters := data.map basicRecord
        , ai_enhancement_used := false
        , ollama_model_used := none
        , ai_error := false } := by
    simp [summarize_clusters, h]
  refine ⟨he, he.trans he'.symm, ?_⟩
  rw [he]
  intro c hc
  obtain ⟨a, _, rfl⟩ := List.mem_map.mp hc
  rfl

theorem C5_disabled_no_provider_witness :
    summarize_clusters (some "true") ⟨true, fun _ => LMResult.err, LMResult.err⟩
        [⟨0, 2, ["a", "b"]⟩]
      = summarize_clusters (some "true")
          ⟨false, fun _ => LMResult.text none, LMResult.text none⟩ [⟨0, 2, ["a", "b"]⟩] :=
  (C5_disabled_no_provider (some "true") ⟨true, fun _ => LMResult.err, LMResult.err⟩
    ⟨false, fun _ => LMResult.text none, LMResult.text none⟩ [⟨0, 2, ["a", "b"]⟩]
    (by decide)).2.1

/-- C6: with the gate enabled and the provider constructed, cluster `j`'s
record in the result is a function of the `j`-th per-cluster response
alone; the alerts response does not affect the cluster records; a failed
alerts call only degrades `alerts` to the sentinel; and changing the
provider's behaviour on one per-cluster call leaves every other
cluster's record unchanged. -/
theorem C6_provider_isolation (env : Option String) (pb : ProviderBehaviour)
    (data : List ClusterData) (he : is_ai_enhancement_enabled env = true)
    (hi : pb.initOk = true) :
    (∀ j : Nat, (summarize_clusters env pb data).clusters.get? j
        = (data.get? j).map (fun c =>
            enabledRecord (summarize_cluster (pb.clusterResp j) c.cluster_id c.logs) c))
    ∧ (∀ alt : LMResult,
        (summarize_clusters env ⟨pb.initOk, pb.clusterResp, alt⟩ data).clusters
          = (summarize_clusters env pb data).clusters)
    ∧ (pb.alertsResp = LMResult.err →
        (summarize_clusters env pb data).alerts = AlertsValue.str "No alerts identified")
    ∧ (∀ (pb' : ProviderBehaviour) (i : Nat), pb'.initOk = true →
        (∀ k, k ≠ i → pb'.clusterResp k = pb.clusterResp k) →
        ∀ j, j ≠ i →
          (summarize_clusters env pb' data).clusters.get? j
            = (summarize_clusters env pb data).clusters.get? j) := by
  have hclusters : (summarize_clusters env pb data).clusters
      = summarizeLoop pb.clusterResp 0 data := by
    simp [summarize_clusters, he, hi]
  refine ⟨?_, ?_, ?_, ?_⟩
  · intro j
    rw [hclusters, summarizeLoop_get?]
    simp
  · intro alt
    simp [summarize_clusters, he, hi]
  · intro ha
    simp [summarize_clusters, he, hi, ha, extract_insights]
  · intro pb' i hpi hagree j hj
    have hc' : (summarize_clusters env pb' data).clusters
        = summarizeLoop pb'.clusterResp 0 data := by
      simp [summarize_clusters, he, hpi]
    rw [hc', hclusters, summarizeLoop_get?, summarizeLoop_get?]
    simp only [Nat.zero_add]
    rw [hagree j hj]

theorem C6_provider_isolation_witness :
    (summarize_clusters none ⟨true, fun _ => LMResult.err, LMResult.err⟩
        [⟨0, 1, ["a"]⟩]).alerts = AlertsValue.str "No alerts identified" :=
  (C6_provider_isolation none ⟨true, fun _ => LMResult.err, LMResult.err⟩
    [⟨0, 1, ["a"]⟩] (by decide) rfl).2.2.1 rfl
